import Mathlib

/-!
Verification development for the PCF8574 Arduino GPIO-expander driver
(repository `malkusch/Arduino-PCF8574`).

The repository sources contain only the class header `src/PCF8574.h`,
which declares the shadow registers `_PORT`, `_PIN`, `_DDR`, `_oldPIN`,
`_isrIgnore`, the per-pin interrupt tables `_intMode` / `_intCallback`,
and documents the behaviour of each member function.  The member-function
bodies (`PCF8574.cpp`) are not part of the sources, so every operation
below is modelled from the specification (and the header's doc comments),
marked `Modelled from the spec:`.

Machine bytes are modelled as `Nat` values, truncated with `% 256` or
masked with `255` where the 8-bit width matters.  The external Register
I/O Port (the I2C bus) is modelled by explicit parameters: a physical
read passes the byte the bus returns, a physical write passes the status
code (0 = success, 1..4 = the error codes listed in the header) the bus
reports for that transaction.  Callbacks are modelled as opaque numeric
identifiers; a poll returns the list of pins whose callback fired, in
increasing pin order.
-/

/-- Interrupt mode of a binding: LOW, CHANGE, FALLING or RISING. -/
inductive IntMode : Type
  | low
  | change
  | falling
  | rising
deriving DecidableEq

/-- The driver's shadow state, mirroring the protected fields of class
`PCF8574` (header lines 195-223): output intents `_PORT`, last observed
input `_PIN`, direction mask `_DDR` (bit = 1 means OUTPUT), previous
snapshot `_oldPIN`, the ISR ignore flag `_isrIgnore`, and the per-pin
interrupt tables.  `intCallback p = none` means no binding on pin `p`. -/
structure Shadow : Type where
  PORT : Nat
  PIN : Nat
  DDR : Nat
  oldPIN : Nat
  isrIgnore : Bool
  intMode : Nat → IntMode
  intCallback : Nat → Option Nat

/-- Pointwise update of a table at one index. -/
def updFn {α : Type} (f : Nat → α) (p : Nat) (a : α) : Nat → α :=
  fun q => if q = p then a else f q

/-- Set (`b = true`) or clear (`b = false`) bit `p` of the byte `x`,
as the C code does with `_PORT |= (1 << pin)` / `_PORT &= ~(1 << pin)`
on a `uint8_t`. -/
def setPortBit (x p : Nat) (b : Bool) : Nat :=
  if b then x ||| 2 ^ p else x &&& (255 ^^^ 2 ^ p)

/-- Modelled from the spec: the byte `updateGPIO` physically writes
(the body of `PCF8574::updateGPIO` is not in the sources; header lines
232-244 and spec 4.1 document it).  For each bit: if the direction bit
is OUTPUT take the output-intent bit, otherwise keep the last physically
observed input bit, so an output write never disturbs input pins on the
shared port register. -/
def mergedOutput (st : Shadow) : Nat :=
  (st.DDR &&& st.PORT) ||| ((255 ^^^ st.DDR) &&& st.PIN)

/-- Modelled from the spec: `PCF8574::updateGPIO` writes `mergedOutput`
to the bus and returns the bus status unchanged (no retry).  Result is
`(written byte, returned status)`; the shadow state is not touched by
the transaction itself. -/
def updateGpio (st : Shadow) (busStatus : Nat) : Nat × Nat :=
  (mergedOutput st, busStatus)

/-- Modelled from the spec: `PCF8574::digitalWrite` (= `setOutput`).
Fails fast with `InvalidPinError` (encoded as `none`: no state change,
no bus transaction) when `pin ≥ 8`.  Otherwise it updates the `_PORT`
bit for `pin`, performs the merged write, and returns
`some (new state, written byte, bus status)`; on a bus failure
(status ≠ 0) the shadow state is left exactly as before the operation
(spec section 7: no partial write is assumed committed). -/
def digitalWrite (st : Shadow) (pin value busStatus : Nat) :
    Option (Shadow × Nat × Nat) :=
  if 8 ≤ pin then none
  else
    let st1 : Shadow := { st with PORT := setPortBit st.PORT pin (value != 0) }
    if busStatus = 0 then some (st1, mergedOutput st1, busStatus)
    else some (st, mergedOutput st1, busStatus)

/-- Modelled from the spec: `PCF8574::write` (= `applyAll`) bypasses the
per-pin direction merge and writes the literal byte; on success the
output-intent shadow becomes that byte, on a bus failure the shadow is
unchanged.  Result is `(new state, written byte, status)`. -/
def write (st : Shadow) (value busStatus : Nat) : Shadow × Nat × Nat :=
  if busStatus = 0 then ({ st with PORT := value % 256 }, value % 256, busStatus)
  else (st, value % 256, busStatus)

/-- Modelled from the spec: `PCF8574::clear` sets all pins LOW by
writing the literal byte `0x00` (header line 91: "Exactly like
write(0x00)"). -/
def clear (st : Shadow) (busStatus : Nat) : Shadow × Nat × Nat :=
  if busStatus = 0 then ({ st with PORT := 0 }, 0, busStatus)
  else (st, 0, busStatus)

/-- Modelled from the spec: `PCF8574::set` sets all pins HIGH by
writing the literal byte `0xFF` (header line 102: "Exactly like
write(0xFF)"). -/
def set (st : Shadow) (busStatus : Nat) : Shadow × Nat × Nat :=
  if busStatus = 0 then ({ st with PORT := 255 }, 255, busStatus)
  else (st, 255, busStatus)

/-- Modelled from the spec: `PCF8574::toggle` flips the output-intent
bit of `pin` and performs the merged write; `none` encodes
`InvalidPinError` for `pin ≥ 8`; on bus failure the shadow is left
unchanged. -/
def toggle (st : Shadow) (pin busStatus : Nat) : Option (Shadow × Nat × Nat) :=
  if 8 ≤ pin then none
  else
    let st1 : Shadow := { st with PORT := (st.PORT ^^^ 2 ^ pin) % 256 }
    if busStatus = 0 then some (st1, mergedOutput st1, busStatus)
    else some (st, mergedOutput st1, busStatus)

/-- Modelled from the spec: `PCF8574::readGPIO` (header lines 225-230)
moves the current `_PIN` snapshot to `_oldPIN`, then stores the byte
read from the bus into `_PIN`. -/
def readGpio (st : Shadow) (readValue : Nat) : Shadow :=
  { st with oldPIN := st.PIN, PIN := readValue % 256 }

/-- Modelled from the spec: `PCF8574::digitalRead` (= `getInput`)
refreshes the snapshot through the physical read path (spec 4.4) and
returns the bit of `PortSnapshot.current` for `pin`, regardless of the
direction mask (spec 4.1).  Result is `(1 or 0, new state)`. -/
def digitalRead (st : Shadow) (pin readValue : Nat) : Nat × Shadow :=
  let st1 := readGpio st readValue
  (if st1.PIN.testBit pin then 1 else 0, st1)

/-- Modelled from the spec: the edge-detector / mode-matching predicate
of `PCF8574::checkForInterrupt` (spec 4.2).  Given a binding's mode and
the previous and current bit of the pin, decide whether the binding's
condition is detected: RISING on a 0→1 transition, FALLING on a 1→0
transition, CHANGE on any transition, and LOW purely on the current
level (level-triggered). -/
def matchMode : IntMode → Bool → Bool → Bool
  | IntMode.rising, prevBit, curBit => !prevBit && curBit
  | IntMode.falling, prevBit, curBit => prevBit && !curBit
  | IntMode.change, prevBit, curBit => prevBit != curBit
  | IntMode.low, _, curBit => !curBit

/-- Modelled from the spec: `PCF8574::checkForInterrupt` (= `poll`,
spec 4.3).  If the ignore flag is set, clear it and return without any
physical read and without firing callbacks.  Otherwise move the current
snapshot to `previous`, physically read the port into `current`
(`readValue` is the byte the bus returns), and fire the callback of
every bound pin whose mode matches the observed transition, in
increasing pin order.  Result is `(new state, pins whose callback
fired)`. -/
def checkForInterrupt (st : Shadow) (readValue : Nat) : Shadow × List Nat :=
  if st.isrIgnore then ({ st with isrIgnore := false }, [])
  else
    let st1 := readGpio st readValue
    (st1, (List.range 8).filter fun p =>
      (st1.intCallback p).isSome &&
        matchMode (st1.intMode p) (st1.oldPIN.testBit p) (st1.PIN.testBit p))

/-- Modelled from the spec: `PCF8574::attachInterrupt` (= `attach`,
spec 4.3).  Fails fast with `InvalidPinError` (encoded as `none`: no
mutation of any table) when `pin ≥ 8`; otherwise overwrites the binding
of `pin` with the given mode and callback. -/
def attachInterrupt (st : Shadow) (pin cb : Nat) (mode : IntMode) :
    Option Shadow :=
  if 8 ≤ pin then none
  else some { st with
      intMode := updFn st.intMode pin mode,
      intCallback := updFn st.intCallback pin (some cb) }

/-- Modelled from the spec: `PCF8574::detachInterrupt` (= `detach`,
spec 4.3) clears the binding of `pin`; out-of-range pins leave the
tables untouched. -/
def detachInterrupt (st : Shadow) (pin : Nat) : Shadow :=
  if 8 ≤ pin then st
  else { st with intCallback := updFn st.intCallback pin none }

/-- Modelled from the spec: `PCF8574::pullUp` does nothing (header
lines 123-130: "DO NOTHING - FOR RETRO COMPATIBILITY PURPOSE ONLY").
Its result carries no bus transaction and the state is returned as is. -/
def pullUp (st : Shadow) (pin : Nat) : Shadow := st

/-- Modelled from the spec: `PCF8574::pullDown` does nothing (header
lines 132-139: "DO NOTHING - FOR RETRO COMPATIBILITY PURPOSE ONLY"). -/
def pullDown (st : Shadow) (pin : Nat) : Shadow := st

/-- A concrete state used by the witness theorems: direction mask
`0b00000001`, last read `0b00000010`, all output intents 0, no
bindings, ignore flag clear. -/
def st0 : Shadow :=
  { PORT := 0, PIN := 2, DDR := 1, oldPIN := 0, isrIgnore := false,
    intMode := fun _ => IntMode.low, intCallback := fun _ => none }

/- ### Helper lemmas -/

theorem testBit_255 (i : Nat) (hi : i < 8) : Nat.testBit 255 i = true := by
  have h : (255 : Nat) = 2 ^ 8 - 1 := rfl
  rw [h, Nat.testBit_two_pow_sub_one]
  simpa using hi

theorem testBit_mod256 (x i : Nat) (hi : i < 8) :
    (x % 256).testBit i = x.testBit i := by
  have h : (256 : Nat) = 2 ^ 8 := rfl
  rw [h, Nat.testBit_mod_two_pow]
  simp [hi]

theorem setPortBit_testBit_self (x p : Nat) (b : Bool) (hp : p < 8) :
    (setPortBit x p b).testBit p = b := by
  cases b with
  | false =>
      simp [setPortBit, Nat.testBit_and, Nat.testBit_xor, testBit_255 p hp,
        Nat.testBit_two_pow_self]
  | true =>
      simp [setPortBit, Nat.testBit_or, Nat.testBit_two_pow_self]

theorem mergedOutput_testBit (st : Shadow) (i : Nat) (hi : i < 8) :
    (mergedOutput st).testBit i =
      if st.DDR.testBit i then st.PORT.testBit i else st.PIN.testBit i := by
  unfold mergedOutput
  cases hD : st.DDR.testBit i <;>
    simp [Nat.testBit_or, Nat.testBit_and, Nat.testBit_xor, hD,
      testBit_255 i hi]

theorem updFn_same {α : Type} (f : Nat → α) (p : Nat) (a b : α) :
    updFn (updFn f p a) p b = updFn f p b := by
  funext q
  unfold updFn
  by_cases h : q = p <;> simp [h]

/- ### Claim theorems -/

/-- C1: the write-merge operation (`setOutput` / `digitalWrite`, realized
by `updateGPIO`) first updates the output-intent bit for the pin and
then computes the physically written byte bitwise: for each bit `i`, if
the direction bit `i` is OUTPUT the written bit equals the
output-intent bit `i`, otherwise it equals bit `i` of the last
physically observed input.  In particular, with direction mask
`0b00000001` and last read `0b00000010`, `setOutput(0, 1)` computes the
write value `0b00000011`. -/
theorem c1_write_merge :
    (∀ (st : Shadow) (i : Nat), i < 8 →
      (mergedOutput st).testBit i =
        if st.DDR.testBit i then st.PORT.testBit i else st.PIN.testBit i) ∧
    (∀ (st : Shadow) (pin value : Nat), pin < 8 →
      ∃ stNew : Shadow,
        digitalWrite st pin value 0 = some (stNew, mergedOutput stNew, 0) ∧
        stNew.PORT.testBit pin = (value != 0) ∧
        stNew.DDR = st.DDR ∧ stNew.PIN = st.PIN) ∧
    (∀ st : Shadow, st.DDR = 1 → st.PIN = 2 →
      ∃ stNew : Shadow, digitalWrite st 0 1 0 = some (stNew, 3, 0)) := by
  refine ⟨mergedOutput_testBit, ?_, ?_⟩
  · intro st pin value hpin
    have hn : ¬ 8 ≤ pin := Nat.not_le.mpr hpin
    refine ⟨{ st with PORT := setPortBit st.PORT pin (value != 0) }, ?_, ?_, rfl, rfl⟩
    · simp [digitalWrite, hn]
    · exact setPortBit_testBit_self _ _ _ hpin
  · intro st hD hP
    refine ⟨{ st with PORT := setPortBit st.PORT 0 (1 != 0) }, ?_⟩
    have hsp : setPortBit st.PORT 0 (1 != 0) = st.PORT ||| 2 ^ 0 := rfl
    have h0 : (st.PORT ||| 2 ^ 0).testBit 0 = true := by
      rw [Nat.testBit_or]
      simp
    rw [Nat.testBit_zero] at h0
    have hodd : (st.PORT ||| 2 ^ 0) % 2 = 1 := of_decide_eq_true h0
    have hA : (1 : Nat) &&& (st.PORT ||| 2 ^ 0) = 1 := by
      rw [Nat.one_and_eq_mod_two, hodd]
    have hB : ((255 : Nat) ^^^ 1) &&& 2 = 2 := by decide
    have hmerge :
        mergedOutput { st with PORT := setPortBit st.PORT 0 (1 != 0) } = 3 := by
      show st.DDR &&& setPortBit st.PORT 0 (1 != 0) |||
        (255 ^^^ st.DDR) &&& st.PIN = 3
      rw [hsp, hD, hP, hA, hB]
      decide
    have hcomp : digitalWrite st 0 1 0 =
        some ({ st with PORT := setPortBit st.PORT 0 (1 != 0) },
          mergedOutput { st with PORT := setPortBit st.PORT 0 (1 != 0) }, 0) := rfl
    rw [hcomp, hmerge]

/-- C2: for all snapshots `prev`, `cur` and every pin `p < 8`, the edge
detector reports RISING iff bit `p` went 0→1, FALLING iff it went 1→0,
CHANGE iff the bits differ, a LOW-mode binding matches iff the current
bit is 0 regardless of `prev`, and when the bits are equal no mode other
than LOW matches. -/
theorem c2_edge_detect (prev cur p : Nat) (hp : p < 8) :
    (matchMode IntMode.rising (prev.testBit p) (cur.testBit p) = true ↔
      prev.testBit p = false ∧ cur.testBit p = true) ∧
    (matchMode IntMode.falling (prev.testBit p) (cur.testBit p) = true ↔
      prev.testBit p = true ∧ cur.testBit p = false) ∧
    (matchMode IntMode.change (prev.testBit p) (cur.testBit p) = true ↔
      prev.testBit p ≠ cur.testBit p) ∧
    (matchMode IntMode.low (prev.testBit p) (cur.testBit p) = true ↔
      cur.testBit p = false) ∧
    (prev.testBit p = cur.testBit p → ∀ m : IntMode, m ≠ IntMode.low →
      matchMode m (prev.testBit p) (cur.testBit p) = false) := by
  refine ⟨?_, ?_, ?_, ?_, ?_⟩
  · cases hq : prev.testBit p <;> cases hc : cur.testBit p <;> simp [matchMode]
  · cases hq : prev.testBit p <;> cases hc : cur.testBit p <;> simp [matchMode]
  · cases hq : prev.testBit p <;> cases hc : cur.testBit p <;> simp [matchMode]
  · cases hq : prev.testBit p <;> cases hc : cur.testBit p <;> simp [matchMode]
  · intro heq m hm
    cases m with
    | low => exact absurd rfl hm
    | change => simp [matchMode, heq]
    | falling => rw [heq]; cases cur.testBit p <;> simp [matchMode]
    | rising => rw [heq]; cases cur.testBit p <;> simp [matchMode]

/-- C3: a `poll` (`checkForInterrupt`) invoked while the ignore flag is
set performs no physical port read (the result does not depend on the
byte the bus would return, and both snapshots are unchanged), fires no
callback, leaves every other shadow field unchanged, and clears the
flag before returning. -/
theorem c3_ignore_flag (st : Shadow) (r : Nat) (h : st.isrIgnore = true) :
    (checkForInterrupt st r).1 = { st with isrIgnore := false } ∧
    (checkForInterrupt st r).1.PIN = st.PIN ∧
    (checkForInterrupt st r).1.oldPIN = st.oldPIN ∧
    (checkForInterrupt st r).2 = [] ∧
    (checkForInterrupt st r).1.isrIgnore = false ∧
    (∀ r' : Nat, checkForInterrupt st r = checkForInterrupt st r') := by
  refine ⟨?_, ?_, ?_, ?_, ?_, ?_⟩ <;> simp [checkForInterrupt, h]

/-- C4: for every pin index `p ≥ 8`, the single-pin write
(`digitalWrite`) and the interrupt registration (`attachInterrupt`)
fail with `InvalidPinError` (modelled as `none`), regardless of the
value, mode or bus behaviour: no new state, no written byte and no
status is produced, so no shadow register or binding is mutated and no
hardware transaction is performed. -/
theorem c4_invalid_pin (st : Shadow) (pin : Nat) (h : 8 ≤ pin) :
    (∀ value busStatus : Nat, digitalWrite st pin value busStatus = none) ∧
    (∀ (cb : Nat) (mode : IntMode), attachInterrupt st pin cb mode = none) := by
  constructor
  · intro value busStatus
    simp [digitalWrite, h]
  · intro cb mode
    simp [attachInterrupt, h]

/-- C5: for every hardware-touching operation (`digitalWrite`, `write`,
`clear`, `set`, `toggle`, all going through `updateGPIO`), if the
Register I/O Port returns a non-success status, that status is returned
to the caller unchanged and the whole shadow state (`_PORT`, `_DDR`,
`_PIN`, and everything else) is exactly the state from before the
failed operation; no retry happens (exactly one transaction with the
given status is reflected in the result). -/
theorem c5_bus_error_no_mutation (st : Shadow) (busStatus : Nat)
    (hs : busStatus ≠ 0) :
    (∀ pin value : Nat, pin < 8 →
      ∃ w : Nat, digitalWrite st pin value busStatus = some (st, w, busStatus)) ∧
    (∀ value : Nat, ∃ w : Nat, write st value busStatus = (st, w, busStatus)) ∧
    (∃ w : Nat, clear st busStatus = (st, w, busStatus)) ∧
    (∃ w : Nat, set st busStatus = (st, w, busStatus)) ∧
    (∀ pin : Nat, pin < 8 →
      ∃ w : Nat, toggle st pin busStatus = some (st, w, busStatus)) := by
  refine ⟨?_, ?_, ?_, ?_, ?_⟩
  · intro pin value hpin
    refine ⟨mergedOutput { st with PORT := setPortBit st.PORT pin (value != 0) }, ?_⟩
    simp [digitalWrite, Nat.not_le.mpr hpin, hs]
  · intro value
    exact ⟨value % 256, if_neg hs⟩
  · exact ⟨0, if_neg hs⟩
  · exact ⟨255, if_neg hs⟩
  · intro pin hpin
    refine ⟨mergedOutput { st with PORT := (st.PORT ^^^ 2 ^ pin) % 256 }, ?_⟩
    simp [toggle, Nat.not_le.mpr hpin, hs]

theorem checkForInterrupt_not_ignored (st : Shadow) (r : Nat)
    (hi : st.isrIgnore = false) :
    checkForInterrupt st r =
      (readGpio st r, (List.range 8).filter fun p =>
        (st.intCallback p).isSome &&
          matchMode (st.intMode p) (st.PIN.testBit p) ((r % 256).testBit p)) := by
  simp [checkForInterrupt, hi, readGpio]

/-- C6: a LOW-mode binding is level-triggered: its callback fires on
every poll in which the current bit of the pin is 0, not only the
first.  In particular, when the pin's bit reads 0 on three consecutive
polls, the callback fires on all three. -/
theorem c6_low_level_triggered (st : Shadow) (p cb : Nat) (hp : p < 8)
    (hcb : st.intCallback p = some cb) (hm : st.intMode p = IntMode.low)
    (hi : st.isrIgnore = false) (r1 r2 r3 : Nat)
    (h1 : r1.testBit p = false) (h2 : r2.testBit p = false)
    (h3 : r3.testBit p = false) :
    p ∈ (checkForInterrupt st r1).2 ∧
    p ∈ (checkForInterrupt (checkForInterrupt st r1).1 r2).2 ∧
    p ∈ (checkForInterrupt (checkForInterrupt (checkForInterrupt st r1).1 r2).1 r3).2 := by
  have step : ∀ (s : Shadow) (r : Nat), s.isrIgnore = false →
      s.intCallback p = some cb → s.intMode p = IntMode.low →
      r.testBit p = false →
      p ∈ (checkForInterrupt s r).2 ∧
      (checkForInterrupt s r).1.isrIgnore = false ∧
      (checkForInterrupt s r).1.intCallback p = some cb ∧
      (checkForInterrupt s r).1.intMode p = IntMode.low := by
    intro s r hi' hcb' hm' hr
    rw [checkForInterrupt_not_ignored s r hi']
    refine ⟨?_, hi', hcb', hm'⟩
    rw [List.mem_filter, List.mem_range]
    refine ⟨hp, ?_⟩
    rw [hcb', hm', testBit_mod256 r p hp, hr]
    rfl
  obtain ⟨m1, i1, c1, d1⟩ := step st r1 hi hcb hm h1
  obtain ⟨m2, i2, c2, d2⟩ := step _ r2 i1 c1 d1 h2
  obtain ⟨m3, -, -, -⟩ := step _ r3 i2 c2 d2 h3
  exact ⟨m1, m2, m3⟩

/-- C7: loop-back round trip through the shadow registers.  For a pin
configured OUTPUT, `setOutput(p, v)` (`digitalWrite`) followed by
`getInput(p)` (`digitalRead`) with no intervening physical read returns
`v` (normalized to 1 for any nonzero `v`).  The absence of an
intervening read is modelled by the read path returning the byte that
`digitalWrite` just wrote, which is what the open-drain port yields
when nothing else touched it. -/
theorem c7_loopback (st : Shadow) (p value : Nat) (hp : p < 8)
    (hd : st.DDR.testBit p = true) :
    ∀ (st1 : Shadow) (w status : Nat),
      digitalWrite st p value 0 = some (st1, w, status) →
      (digitalRead st1 p w).1 = if value = 0 then 0 else 1 := by
  intro st1 w status heq
  have hn : ¬ 8 ≤ p := Nat.not_le.mpr hp
  rw [show digitalWrite st p value 0 =
      some ({ st with PORT := setPortBit st.PORT p (value != 0) },
        mergedOutput { st with PORT := setPortBit st.PORT p (value != 0) }, 0) by
    simp [digitalWrite, hn]] at heq
  obtain ⟨h1, h2, -⟩ :
      ({ st with PORT := setPortBit st.PORT p (value != 0) } : Shadow) = st1 ∧
      mergedOutput { st with PORT := setPortBit st.PORT p (value != 0) } = w ∧
      0 = status := by
    simpa only [Option.some.injEq, Prod.mk.injEq] using heq
  subst h1
  subst h2
  show (if ((mergedOutput { st with PORT := setPortBit st.PORT p (value != 0) }) % 256).testBit p
      then 1 else 0) = if value = 0 then 0 else 1
  rw [testBit_mod256 _ p hp, mergedOutput_testBit _ p hp]
  show (if (if st.DDR.testBit p then (setPortBit st.PORT p (value != 0)).testBit p
      else st.PIN.testBit p) then (1 : Nat) else 0) = if value = 0 then 0 else 1
  rw [hd, if_pos rfl, setPortBit_testBit_self _ _ _ hp]
  by_cases hv : value = 0 <;> simp [hv]

/-- C8: for every state and bus outcome, `clear()` is extensionally
equal to `write(0x00)` and `set()` is extensionally equal to
`write(0xFF)`: same resulting shadow state, same physically written
byte and same returned status; moreover the written byte is the literal
value (0 resp. 255), bypassing the per-pin direction merge. -/
theorem c8_clear_set_equiv (st : Shadow) (busStatus : Nat) :
    clear st busStatus = write st 0 busStatus ∧
    set st busStatus = write st 255 busStatus ∧
    (clear st busStatus).2.1 = 0 ∧
    (set st busStatus).2.1 = 255 := by
  have hsetw : set st busStatus = write st 255 busStatus := rfl
  refine ⟨rfl, hsetw, ?_, ?_⟩
  · by_cases hb : busStatus = 0 <;> simp [clear, hb]
  · rw [hsetw]
    by_cases hb : busStatus = 0 <;> simp [write, hb]

/-- C9: `attach(p, mode, cb)` followed by `detach(p)` leaves the
dispatch table with no binding for `p`; in any state without a binding
for `p`, no poll fires `p`'s callback whatever the bus returns; and
`detach(p)` is idempotent: a second `detach(p)` leaves the state
identical. -/
theorem c9_attach_detach (st : Shadow) (p cb : Nat) (m : IntMode)
    (hp : p < 8) :
    ∀ st1 : Shadow, attachInterrupt st p cb m = some st1 →
      (detachInterrupt st1 p).intCallback p = none ∧
      (∀ s : Shadow, s.intCallback p = none →
        ∀ r : Nat, p ∉ (checkForInterrupt s r).2) ∧
      detachInterrupt (detachInterrupt st1 p) p = detachInterrupt st1 p := by
  intro st1 heq
  have hn : ¬ 8 ≤ p := Nat.not_le.mpr hp
  have hnone : ∀ s : Shadow, s.intCallback p = none →
      ∀ r : Nat, p ∉ (checkForInterrupt s r).2 := by
    intro s hs r
    by_cases hi : s.isrIgnore
    · simp [checkForInterrupt, hi]
    · rw [checkForInterrupt_not_ignored s r (by simpa using hi)]
      intro hmem
      rw [List.mem_filter] at hmem
      rw [hs] at hmem
      simpa using hmem.2
  simp only [attachInterrupt, if_neg hn, Option.some.injEq] at heq
  subst heq
  refine ⟨?_, hnone, ?_⟩
  · simp [detachInterrupt, hn, updFn]
  · simp only [detachInterrupt, if_neg hn]
    rw [updFn_same]

/-- C10: `pullUp(pin)` and `pullDown(pin)` leave the entire driver
state unchanged for every pin argument and every state — `_PORT`,
`_PIN`, `_DDR`, `_oldPIN`, `_isrIgnore` and all interrupt bindings keep
their values — and their result type carries no bus transaction: they
are pure no-ops kept for backward compatibility. -/
theorem c10_pull_noop (st : Shadow) (pin : Nat) :
    pullUp st pin = st ∧ pullDown st pin = st :=
  ⟨rfl, rfl⟩

/- ### Witness theorems: each applies its claim theorem at a concrete
input, discharging the hypotheses there. -/

/-- A concrete state with the ignore flag set, for the C3 witness. -/
def stIgn : Shadow :=
  { PORT := 0, PIN := 2, DDR := 1, oldPIN := 0, isrIgnore := true,
    intMode := fun _ => IntMode.low, intCallback := fun _ => none }

/-- A concrete state with a LOW-mode binding `{pin = 2, callback = 7}`,
for the C6 witness. -/
def stLow : Shadow :=
  { PORT := 0, PIN := 0, DDR := 0, oldPIN := 0, isrIgnore := false,
    intMode := fun _ => IntMode.low,
    intCallback := fun q => if q = 2 then some 7 else none }

/-- The state after `digitalWrite st0 0 1 0`, for the C7 witness. -/
def stW : Shadow :=
  { PORT := 1, PIN := 2, DDR := 1, oldPIN := 0, isrIgnore := false,
    intMode := fun _ => IntMode.low, intCallback := fun _ => none }

/-- The state after `attachInterrupt st0 0 5 rising`, for the C9
witness. -/
def stAtt : Shadow :=
  { st0 with intMode := updFn st0.intMode 0 IntMode.rising,
             intCallback := updFn st0.intCallback 0 (some 5) }

/-- Witness for C1: in the spec's scenario state (direction mask 1,
last read 2) the computed write value of `setOutput(0, 1)` is 3. -/
theorem c1_write_merge_witness :
    ∃ stNew : Shadow, digitalWrite st0 0 1 0 = some (stNew, 3, 0) :=
  c1_write_merge.2.2 st0 rfl rfl

/-- Witness for C2 at `prev = 0`, `cur = 1`, `p = 0`. -/
theorem c2_edge_detect_witness :
    matchMode IntMode.rising ((0 : Nat).testBit 0) ((1 : Nat).testBit 0) = true ↔
      (0 : Nat).testBit 0 = false ∧ (1 : Nat).testBit 0 = true :=
  (c2_edge_detect 0 1 0 (by decide)).1

/-- Witness for C3 at a concrete ignored state. -/
theorem c3_ignore_flag_witness :
    (checkForInterrupt stIgn 77).2 = [] ∧
    (checkForInterrupt stIgn 77).1.isrIgnore = false :=
  ⟨(c3_ignore_flag stIgn 77 rfl).2.2.2.1,
   (c3_ignore_flag stIgn 77 rfl).2.2.2.2.1⟩

/-- Witness for C4 at pin 8. -/
theorem c4_invalid_pin_witness :
    digitalWrite st0 8 1 0 = none ∧
    attachInterrupt st0 8 3 IntMode.rising = none :=
  ⟨(c4_invalid_pin st0 8 (by decide)).1 1 0,
   (c4_invalid_pin st0 8 (by decide)).2 3 IntMode.rising⟩

/-- Witness for C5 at bus status 2 (address NACK). -/
theorem c5_bus_error_witness :
    (∃ w : Nat, write st0 9 2 = (st0, w, 2)) ∧
    (∃ w : Nat, digitalWrite st0 0 1 2 = some (st0, w, 2)) :=
  ⟨(c5_bus_error_no_mutation st0 2 (by decide)).2.1 9,
   (c5_bus_error_no_mutation st0 2 (by decide)).1 0 1 (by decide)⟩

/-- Witness for C6: with the LOW binding on pin 2 and the bus reading 0
three times, pin 2's callback fires on the first poll (and, by the
theorem, on all three). -/
theorem c6_low_level_triggered_witness :
    2 ∈ (checkForInterrupt stLow 0).2 :=
  (c6_low_level_triggered stLow 2 7 (by decide) rfl rfl rfl 0 0 0
    (by decide) (by decide) (by decide)).1

/-- Witness for C7: after `digitalWrite st0 0 1 0` wrote the byte 3,
reading it back through the loop-back returns 1. -/
theorem c7_loopback_witness :
    (digitalRead stW 0 3).1 = if (1 : Nat) = 0 then 0 else 1 :=
  c7_loopback st0 0 1 (by decide) (by decide) stW 3 0 rfl

/-- Witness for C9 at pin 0. -/
theorem c9_attach_detach_witness :
    (detachInterrupt stAtt 0).intCallback 0 = none ∧
    detachInterrupt (detachInterrupt stAtt 0) 0 = detachInterrupt stAtt 0 :=
  ⟨(c9_attach_detach st0 0 5 IntMode.rising (by decide) stAtt rfl).1,
   (c9_attach_detach st0 0 5 IntMode.rising (by decide) stAtt rfl).2.2⟩
